import Mathlib

/-!
Verification of the python-subrange library (src/subrange/__init__.py).

The development shallowly embeds the two classes of the package:

* `subrange`  -- a continuous subrange of integers as a min..max object
  (bounds are machine-unbounded Python 2 ints, modelled by `Int`);
* `subrangef` -- an annotated subrange (extra keyword attributes merged
  into the instance dictionary at construction).

Python objects that can reach the public API (constructor arguments,
comparison operands, index keys) are modelled by the inductive `PyObj`;
raised exceptions by `PyErr`; fallible operations return `Except PyErr`.
-/

/-- The core value of a subrange instance: the two integer bounds stored
as the public attributes `min` and `max` (lines 160-162 of
src/subrange/__init__.py). The class invariant `min <= max` is enforced
by the constructor `subrangeNew`, not by the structure itself. -/
structure subrange where
  min : Int
  max : Int
deriving DecidableEq

/-- Python values that can reach the public surface of the library:
genuine ints, bools (a distinct type in Python whose numeric value is
0 or 1), floats (any float value is a rational, modelled by `Rat`),
strings, subrange instances, dictionaries (string-keyed association
lists standing for Python dicts), tuples and lists. -/
inductive PyObj where
  | int (n : Int)
  | bool (b : Bool)
  | float (q : Rat)
  | str (s : String)
  | sub (r : subrange)
  | dict (entries : List (String × PyObj))
  | tuple (items : List PyObj)
  | list (items : List PyObj)

/-- Exceptions raised by the library (TypeError, ValueError, IndexError,
AttributeError, KeyError), each carrying its message string. -/
inductive PyErr where
  | typeError (msg : String)
  | valueError (msg : String)
  | indexError (msg : String)
  | attributeError (msg : String)
  | keyError (msg : String)
deriving DecidableEq

/-- Python's type(x).__name__ for the modelled objects. -/
def typeName : PyObj → String
  | .int _ => "int"
  | .bool _ => "bool"
  | .float _ => "float"
  | .str _ => "str"
  | .sub _ => "subrange"
  | .dict _ => "dict"
  | .tuple _ => "tuple"
  | .list _ => "list"

mutual

/-- Python's repr of the modelled objects, used by the %r conversions in
the constructor's error messages. Ints render in decimal, bools as
True/False, strings single-quoted; a float is rendered through Rat's
decimal/fraction notation (an embedding-level stand-in for CPython's
float repr; no claim inspects a float's digits); a subrange renders via
its cached formal representation "subrange(min, max)" (line 166); a
dict renders its entries in association-list order (CPython's
hash-driven dict ordering is not reproduced; no claim inspects it). -/
def pyRepr : PyObj → String
  | .int n => toString n
  | .bool b => if b then "True" else "False"
  | .float q => toString q
  | .str s => "'" ++ s ++ "'"
  | .sub r => "subrange(" ++ toString r.min ++ ", " ++ toString r.max ++ ")"
  | .dict entries => "\x7b" ++ pyReprEntries entries ++ "\x7d"
  | .tuple [x] => "(" ++ pyRepr x ++ ",)"
  | .tuple items => "(" ++ pyReprItems items ++ ")"
  | .list items => "[" ++ pyReprItems items ++ "]"
termination_by o => sizeOf o

/-- Comma-separated reprs of a sequence of objects. -/
def pyReprItems : List PyObj → String
  | [] => ""
  | [x] => pyRepr x
  | x :: xs => pyRepr x ++ ", " ++ pyReprItems xs
termination_by xs => sizeOf xs

/-- Comma-separated reprs of the key: value pairs of a dict. -/
def pyReprEntries : List (String × PyObj) → String
  | [] => ""
  | [(k, v)] => "'" ++ k ++ "': " ++ pyRepr v
  | (k, v) :: es => "'" ++ k ++ "': " ++ pyRepr v ++ ", " ++ pyReprEntries es
termination_by es => sizeOf es

end

/-- The test `type(x) is int` of line 150: only genuine ints pass; bools,
floats, strings, and every other object are rejected (in Python, True
has type bool, so it fails an exact type test even though it is an int
by isinstance). Returns the integer value on success. -/
def isExactInt : PyObj → Option Int
  | .int n => some n
  | _ => none

/-- Lines 150-158 of subrange.__new__: after the initializer has been
resolved to the pair (min_, max_), both values must be of exact type
int, otherwise TypeError("invalid limits: min=%r, max=%r"); then
min_ <= max_ must hold, otherwise
ValueError("reversed limits: min=%d, max=%d"). On success the instance
stores the two bounds (line 162). -/
def checkLimits (mn mx : PyObj) : Except PyErr subrange :=
  match isExactInt mn, isExactInt mx with
  | some m, some n =>
      if m > n then
        .error (.valueError ("reversed limits: min=" ++ toString m ++ ", max=" ++ toString n))
      else
        .ok ⟨m, n⟩
  | _, _ =>
      .error (.typeError ("invalid limits: min=" ++ pyRepr mn ++ ", max=" ++ pyRepr mx))

/-- Membership test of a key in a dict (Python: key in d.viewkeys()). -/
def hasKey (entries : List (String × PyObj)) (k : String) : Bool :=
  entries.any (fun e => e.1 == k)

/-- Dict subscript d[k] (first binding; Python dicts hold each key once). -/
def dictGet (entries : List (String × PyObj)) (k : String) : Option PyObj :=
  (entries.find? (fun e => e.1 == k)).map (fun e => e.2)

/-- Line 124: absent_entries = {'min', 'max'} - set(arg.viewkeys()).
The result is iterated in CPython 2's set order: the literal
{'min', 'max'} occupies an 8-slot table, hash('max') lands in slot 1
and hash('min') in slot 7 (Python 2 string hash mod 8), so iteration
yields 'max' before 'min'; subtracting a key removes its element and
keeps the others in place. Filtering the fixed list ["max", "min"]
reproduces that order in every case (corroborated by the expected
output "initializing dictionary does not define 'max', 'min'" in
src/test.py). -/
def absentEntries (entries : List (String × PyObj)) : List String :=
  ["max", "min"].filter (fun k => !(hasKey entries k))

/-- Surrounds each key with single quotes, as "%r" % key does for a str. -/
def quoteKeys (ks : List String) : List String :=
  ks.map (fun k => "'" ++ k ++ "'")

/-- Python's ', '.join. -/
def joinComma : List String → String
  | [] => ""
  | [x] => x
  | x :: xs => x ++ ", " ++ joinComma xs

/-- subrange.__new__ (lines 62-170): resolves the positional arguments
to the pair (min_, max_) and validates it with `checkLimits`.

* no argument: ValueError("initializer omitted") (line 113);
* one argument (line 117): a subrange is copied field-wise; a dict must
  define both 'min' and 'max' (missing keys reported in CPython set
  order, see `absentEntries`) and is subscripted for them; a tuple or
  list must have exactly two items; any other object is used as both
  bounds;
* two arguments: used directly as min_, max_ (line 143);
* three or more: ValueError("too many initializers") (line 146). -/
def subrangeNew (args : List PyObj) : Except PyErr subrange :=
  match args with
  | [] => .error (.valueError "initializer omitted")
  | [arg] =>
      match arg with
      | .sub r => checkLimits (.int r.min) (.int r.max)
      | .dict entries =>
          match absentEntries entries with
          | [] =>
              match dictGet entries "min", dictGet entries "max" with
              | some mn, some mx => checkLimits mn mx
              | _, _ => .error (.keyError "min")
          | absent =>
              .error (.typeError
                ("initializing dictionary does not define "
                  ++ joinComma (quoteKeys absent)))
      | .tuple items =>
          match items with
          | [mn, mx] => checkLimits mn mx
          | _ => .error (.typeError
              ("initializing 'tuple' contains " ++ toString items.length
                ++ " item(s), must be 2"))
      | .list items =>
          match items with
          | [mn, mx] => checkLimits mn mx
          | _ => .error (.typeError
              ("initializing 'list' contains " ++ toString items.length
                ++ " item(s), must be 2"))
      | other => checkLimits other other
  | [mn, mx] => checkLimits mn mx
  | _ => .error (.valueError "too many initializers")

/-- The argument Python's built-in hash receives for a subrange: line 164
stores hash((min_, max_) if min_ != max_ else min_), so the hash of a
multi-item subrange is the hash of the bounds pair, and the hash of a
single-item subrange is the hash of the bare integer item. -/
inductive HashInput where
  | int (n : Int)
  | pair (mn mx : Int)
deriving DecidableEq

/-- The object whose built-in hash becomes the subrange's cached hash
(line 164). -/
def subrange.hashInput (self : subrange) : HashInput :=
  if self.min ≠ self.max then .pair self.min self.max else .int self.min

/-- The cached hash of line 164, for an ambient hash function h on the
possible hash arguments (Python's hash itself is runtime-defined). -/
def subrangeHash (h : HashInput → Int) (self : subrange) : Int :=
  h self.hashInput

/-- Python numeric equality of an int against another non-subrange
object: ints and bools compare by value (True == 1), floats by exact
rational value; objects of any other type are simply unequal in
Python 2. -/
def numEqInt (m : Int) : PyObj → Bool
  | .int n => m == n
  | .bool b => m == (if b then (1 : Int) else 0)
  | .float q => (m : Rat) == q
  | _ => false

/-- subrange.__eq__ (lines 340-374): against another subrange, true iff
both bounds match (line 371-372); against anything else, the chained
comparison self.min == self.max == other (line 374): true iff the
subrange is single-item and its item equals the other value. -/
def subrange.eqVal (self : subrange) (other : PyObj) : Bool :=
  match other with
  | .sub o => self.min == o.min && self.max == o.max
  | v => self.min == self.max && numEqInt self.max v

/-- Interpreter-level a == b for an int on the left and a subrange on
the right: int.__eq__ answers NotImplemented for a subrange operand, so
Python falls back to the reflected subrange.__eq__ call; both operand
orders therefore evaluate the same method body (line 371-374). -/
def pyEqIntSub (v : Int) (r : subrange) : Bool :=
  r.eqVal (.int v)

/-- subrange.__lt__ (lines 421-424), subrange operand branch:
self.max < other.min. -/
def subrange.lt (a b : subrange) : Bool :=
  a.max < b.min

/-- subrange.__gt__ (lines 456-459), subrange operand branch:
self.min > other.max. -/
def subrange.gt (a b : subrange) : Bool :=
  a.min > b.max

/-- Bound-wise equality, the subrange branch of __eq__ (line 371-372),
as used by __le__ and __ge__. -/
def subrange.eqS (a b : subrange) : Bool :=
  a.min == b.min && a.max == b.max

/-- subrange.__le__ (line 485): self < other or self == other. -/
def subrange.le (a b : subrange) : Bool :=
  a.lt b || a.eqS b

/-- subrange.__ge__ (line 511): self > other or self == other. -/
def subrange.ge (a b : subrange) : Bool :=
  a.gt b || a.eqS b

/-- subrange.__len__ (line 568): max - min + 1. -/
def subrange.len (self : subrange) : Int :=
  self.max - self.min + 1

/-- The isinstance(key, int) test of line 589 together with the numeric
value the index key contributes: genuine ints pass with their value and
bools pass too (bool is a subclass of int, False counting as 0 and True
as 1); every other type fails the test. -/
def keyIntVal : PyObj → Option Int
  | .int n => some n
  | .bool b => some (if b then 1 else 0)
  | _ => none

/-- subrange.__getitem__ (lines 570-605): a key failing the
isinstance(key, int) test raises
TypeError("%s indices must be integers, not %s"); an integer key k with
0 <= k <= span (span = max - min) yields min + k; one with
-span <= k + 1 <= 0 yields max + k + 1; anything else raises
IndexError("%s index out of range"). The class-name placeholder renders
as "subrange" (for instances of the base class, which is what the
claims quantify over). -/
def subrange.getItem (self : subrange) (key : PyObj) : Except PyErr Int :=
  match keyIntVal key with
  | none =>
      .error (.typeError ("subrange indices must be integers, not " ++ typeName key))
  | some k =>
      let span := self.max - self.min
      if 0 ≤ k ∧ k ≤ span then
        .ok (self.min + k)
      else if -span ≤ k + 1 ∧ k + 1 ≤ 0 then
        .ok (self.max + k + 1)
      else
        .error (.indexError "subrange index out of range")

/-- A constructed subrangef instance: its inherited subrange core (the
min and max attributes equality, ordering and hashing operate on) and
the kwargs-derived entries of its instance dictionary after
construction (the full dictionary also holds min, max and the cached
private fields, omitted here; an entry named min or max holds the core
bound, see `subrangefNew`). -/
structure subrangef where
  core : subrange
  attrs : List (String × PyObj)

/-- subrangef.__new__ (lines 751-761).

1. self = subrange.__new__(cls, *args): resolves and validates the
   bounds exactly as `subrangeNew`; failures propagate.
2. kwargs.update(self.__dict__) then self.__dict__.update(kwargs): the
   instance dictionary is updated DIRECTLY, bypassing the write-once
   __setattr__, and the update of kwargs with self.__dict__ comes
   first, so a keyword named after an already-set attribute (min, max,
   or a cached private field) is silently replaced by the attribute's
   current value; all other keywords become new attributes.
3. self.value = subrange(*args) goes through __setattr__ (line 193):
   if a keyword named value was injected in step 2, hasattr is true and
   AttributeError("attribute 'value' of '%s' objects is not writable")
   is raised; otherwise the fresh plain subrange is stored (its
   construction repeats step 1's successful validation).
4. The cached default rendering (line 758, str_spec applied to the
   attribute dictionary) is not modelled: it does not touch the bounds,
   the attributes, or the comparison/hash behaviour.

Keywords named after the mangled private fields behave like min/max
(silently replaced); they are left as ordinary entries here since no
claim mentions them. -/
def subrangefNew (args : List PyObj) (kwargs : List (String × PyObj)) :
    Except PyErr subrangef :=
  match subrangeNew args with
  | .error e => .error e
  | .ok s =>
      if hasKey kwargs "value" then
        .error (.attributeError "attribute 'value' of 'subrangef' objects is not writable")
      else
        .ok { core := s,
              attrs := kwargs.map (fun e =>
                if e.1 == "min" then (e.1, PyObj.int s.min)
                else if e.1 == "max" then (e.1, PyObj.int s.max)
                else e) }


/-- Whether an operation's outcome is a successful result rather than a
raised exception. -/
def exceptOk {α : Type} : Except PyErr α → Bool
  | .ok _ => true
  | .error _ => false

/-- Claim C1: for every integer v, the single-element interval
subrange(v) is equal to the bare integer v in both operand orders, and
its hash argument is the bare integer v itself, so hash(subrange(v))
equals hash(v) under any ambient hash function; for every pair of
bounds with min != max the hash argument is the pair (min, max). -/
theorem C1_single_item_eq_and_hash :
    ∀ v : Int,
      subrangeNew [PyObj.int v] = Except.ok ⟨v, v⟩ ∧
      (subrange.mk v v).eqVal (PyObj.int v) = true ∧
      pyEqIntSub v ⟨v, v⟩ = true ∧
      (subrange.mk v v).hashInput = HashInput.int v ∧
      (∀ h : HashInput → Int, subrangeHash h ⟨v, v⟩ = h (HashInput.int v)) ∧
      (∀ mn mx : Int, mn ≠ mx →
        (subrange.mk mn mx).hashInput = HashInput.pair mn mx) := by
  intro v
  refine ⟨?_, ?_, ?_, ?_, ?_, ?_⟩
  · simp [subrangeNew, checkLimits, isExactInt]
  · simp [subrange.eqVal, numEqInt]
  · simp [pyEqIntSub, subrange.eqVal, numEqInt]
  · simp [subrange.hashInput]
  · intro h
    simp [subrangeHash, subrange.hashInput]
  · intro mn mx hne
    simp [subrange.hashInput, hne]

/-- Witness for C1 at concrete inputs v = 5 and bounds (4, 9). -/
theorem C1_single_item_eq_and_hash_witness :
    subrangeNew [PyObj.int 5] = Except.ok ⟨5, 5⟩ ∧
    (subrange.mk 4 9).hashInput = HashInput.pair 4 9 :=
  ⟨(C1_single_item_eq_and_hash 5).1,
   (C1_single_item_eq_and_hash 5).2.2.2.2.2 4 9 (by decide)⟩

/-- Claim C2: for intervals a and b, a <= b holds iff a.max < b.min or
the bounds coincide exactly, and symmetrically a >= b holds iff
a.min > b.max or the bounds coincide; consequently two overlapping but
unequal intervals satisfy neither a <= b nor a >= b (<= is not the
negation of the reversed strict comparison). -/
theorem C2_le_ge_exact_bounds :
    ∀ a b : subrange, a.min ≤ a.max → b.min ≤ b.max →
      (a.le b = true ↔ (a.max < b.min ∨ (a.min = b.min ∧ a.max = b.max))) ∧
      (a.ge b = true ↔ (a.min > b.max ∨ (a.min = b.min ∧ a.max = b.max))) ∧
      (a.min ≤ b.max → b.min ≤ a.max → ¬(a.min = b.min ∧ a.max = b.max) →
        a.le b = false ∧ a.ge b = false) := by
  intro a b ha hb
  refine ⟨by simp [subrange.le, subrange.lt, subrange.eqS],
          by simp [subrange.ge, subrange.gt, subrange.eqS],
          ?_⟩
  intro h1 h2 h3
  constructor <;>
    simp [subrange.le, subrange.ge, subrange.lt, subrange.gt, subrange.eqS] <;>
    omega

/-- Witness for C2 at the overlapping unequal pair (1..3, 2..4). -/
theorem C2_le_ge_exact_bounds_witness :
    (subrange.mk 1 3).le ⟨2, 4⟩ = false ∧ (subrange.mk 1 3).ge ⟨2, 4⟩ = false :=
  (C2_le_ge_exact_bounds ⟨1, 3⟩ ⟨2, 4⟩ (by decide) (by decide)).2.2
    (by decide) (by decide) (by decide)

/-- Claim C9: strict comparison is a dual pair (a < b iff b > a) and,
under the min <= max invariant every constructed instance satisfies, it
is asymmetric: a < b and a > b never hold together. -/
theorem C9_lt_gt_dual_asymmetric :
    ∀ a b : subrange,
      a.lt b = b.gt a ∧
      (a.min ≤ a.max → b.min ≤ b.max → ¬(a.lt b = true ∧ a.gt b = true)) := by
  intro a b
  constructor
  · simp [subrange.lt, subrange.gt]
  · intro ha hb
    simp only [subrange.lt, subrange.gt, decide_eq_true_eq]
    omega

/-- Witness for C9 at the pair (1..2, 3..4). -/
theorem C9_lt_gt_dual_asymmetric_witness :
    ¬((subrange.mk 1 2).lt ⟨3, 4⟩ = true ∧ (subrange.mk 1 2).gt ⟨3, 4⟩ = true) :=
  (C9_lt_gt_dual_asymmetric ⟨1, 2⟩ ⟨3, 4⟩).2 (by decide) (by decide)

/-- Claim C4: for all integers lo <= hi, subrange(lo, hi) is
constructible, has length hi - lo + 1, yields lo at index 0 and hi at
index -1; any integer index outside [-(len), len - 1] raises
IndexError, and any index failing the integer-type test raises
TypeError. -/
theorem C4_len_and_indexing :
    ∀ lo hi : Int, lo ≤ hi →
      subrangeNew [PyObj.int lo, PyObj.int hi] = Except.ok ⟨lo, hi⟩ ∧
      (subrange.mk lo hi).len = hi - lo + 1 ∧
      (subrange.mk lo hi).getItem (PyObj.int 0) = Except.ok lo ∧
      (subrange.mk lo hi).getItem (PyObj.int (-1)) = Except.ok hi ∧
      (∀ k : Int, (k < -(hi - lo + 1) ∨ k > hi - lo) →
        (subrange.mk lo hi).getItem (PyObj.int k) =
          Except.error (PyErr.indexError "subrange index out of range")) ∧
      (∀ key : PyObj, keyIntVal key = none →
        (subrange.mk lo hi).getItem key =
          Except.error (PyErr.typeError
            ("subrange indices must be integers, not " ++ typeName key))) := by
  intro lo hi hle
  have hng : ¬ (lo > hi) := by omega
  have h0 : (0:Int) ≤ hi - lo := by omega
  refine ⟨?_, rfl, ?_, ?_, ?_, ?_⟩
  · simp [subrangeNew, checkLimits, isExactInt, hng]
  · simp [subrange.getItem, keyIntVal, h0]
  · have hn1 : -(hi - lo) ≤ (0:Int) := by omega
    simp [subrange.getItem, keyIntVal, hn1]
    omega
  · intro k hk
    have h1 : ¬ (0 ≤ k ∧ k ≤ hi - lo) := by omega
    have h2 : ¬ (-(hi - lo) ≤ k + 1 ∧ k + 1 ≤ 0) := by omega
    simp [subrange.getItem, keyIntVal, h1, h2]
    omega
  · intro key hkey
    simp [subrange.getItem, hkey]

/-- Witness for C4 at the interval 3..12, the out-of-range index 13 and
a string index. -/
theorem C4_len_and_indexing_witness :
    (subrange.mk 3 12).len = 10 ∧
    (subrange.mk 3 12).getItem (PyObj.int 0) = Except.ok 3 ∧
    (subrange.mk 3 12).getItem (PyObj.int (-1)) = Except.ok 12 ∧
    (subrange.mk 3 12).getItem (PyObj.int 13) =
      Except.error (PyErr.indexError "subrange index out of range") ∧
    (subrange.mk 3 12).getItem (PyObj.str "a") =
      Except.error (PyErr.typeError
        ("subrange indices must be integers, not " ++ typeName (PyObj.str "a"))) :=
  ⟨(C4_len_and_indexing 3 12 (by decide)).2.1,
   (C4_len_and_indexing 3 12 (by decide)).2.2.1,
   (C4_len_and_indexing 3 12 (by decide)).2.2.2.1,
   (C4_len_and_indexing 3 12 (by decide)).2.2.2.2.1 13 (by decide),
   (C4_len_and_indexing 3 12 (by decide)).2.2.2.2.2 (PyObj.str "a") rfl⟩

/-- Claim C5: validation of the resolved bounds. If either bound is not
a genuine int (floats and integer-like bools included), construction
fails with a TypeError whose message reports both attempted values; if
both are ints but min > max, it fails with a ValueError reporting both
bounds; it succeeds exactly when both bounds are genuine ints with
min <= max. -/
theorem C5_bound_validation :
    ∀ mn mx : PyObj,
      ((isExactInt mn = none ∨ isExactInt mx = none) →
        checkLimits mn mx = Except.error (PyErr.typeError
          ("invalid limits: min=" ++ pyRepr mn ++ ", max=" ++ pyRepr mx))) ∧
      (∀ m n : Int, isExactInt mn = some m → isExactInt mx = some n →
        (m > n → checkLimits mn mx = Except.error (PyErr.valueError
          ("reversed limits: min=" ++ toString m ++ ", max=" ++ toString n))) ∧
        (m ≤ n → checkLimits mn mx = Except.ok ⟨m, n⟩)) ∧
      (exceptOk (checkLimits mn mx) = true ↔
        ∃ m n : Int, isExactInt mn = some m ∧ isExactInt mx = some n ∧ m ≤ n) := by
  intro mn mx
  refine ⟨?_, ?_, ?_⟩
  · intro h
    rcases h with h | h
    · simp [checkLimits, h]
    · cases hmn : isExactInt mn <;> simp [checkLimits, hmn, h]
  · intro m n hm hn
    constructor
    · intro hgt
      simp [checkLimits, hm, hn, hgt]
    · intro hle
      have hng : ¬ (m > n) := by omega
      simp [checkLimits, hm, hn, hng]
  · constructor
    · intro hok
      cases hmn : isExactInt mn with
      | none => simp [checkLimits, hmn, exceptOk] at hok
      | some m =>
        cases hmx : isExactInt mx with
        | none => simp [checkLimits, hmn, hmx, exceptOk] at hok
        | some n =>
          by_cases hc : m > n
          · simp [checkLimits, hmn, hmx, hc, exceptOk] at hok
          · exact ⟨m, n, rfl, rfl, by omega⟩
    · rintro ⟨m, n, hm, hn, hle⟩
      have hng : ¬ (m > n) := by omega
      simp [checkLimits, hm, hn, hng, exceptOk]

/-- Witness for C5: a float bound raises TypeError, reversed int bounds
raise ValueError, and valid bounds construct. -/
theorem C5_bound_validation_witness :
    checkLimits (PyObj.float 5) (PyObj.int 3) =
      Except.error (PyErr.typeError
        ("invalid limits: min=" ++ pyRepr (PyObj.float 5) ++ ", max=" ++ pyRepr (PyObj.int 3))) ∧
    checkLimits (PyObj.int 10) (PyObj.int 2) =
      Except.error (PyErr.valueError
        ("reversed limits: min=" ++ toString (10 : Int) ++ ", max=" ++ toString (2 : Int))) ∧
    checkLimits (PyObj.int 3) (PyObj.int 12) = Except.ok ⟨3, 12⟩ :=
  ⟨(C5_bound_validation (PyObj.float 5) (PyObj.int 3)).1 (Or.inl rfl),
   ((C5_bound_validation (PyObj.int 10) (PyObj.int 2)).2.1 10 2 rfl rfl).1 (by decide),
   ((C5_bound_validation (PyObj.int 3) (PyObj.int 12)).2.1 3 12 rfl rfl).2 (by decide)⟩

/-- Claim C6: for all integers lo <= hi, constructing a subrange from
another subrange yields an interval with the same bounds, equal to the
original. -/
theorem C6_copy_construction :
    ∀ lo hi : Int, lo ≤ hi →
      subrangeNew [PyObj.int lo, PyObj.int hi] = Except.ok ⟨lo, hi⟩ ∧
      subrangeNew [PyObj.sub ⟨lo, hi⟩] = Except.ok ⟨lo, hi⟩ ∧
      (subrange.mk lo hi).eqVal (PyObj.sub ⟨lo, hi⟩) = true := by
  intro lo hi hle
  have hng : ¬ (lo > hi) := by omega
  exact ⟨by simp [subrangeNew, checkLimits, isExactInt, hng],
         by simp [subrangeNew, checkLimits, isExactInt, hng],
         by simp [subrange.eqVal]⟩

/-- Witness for C6 at the interval 3..12. -/
theorem C6_copy_construction_witness :
    subrangeNew [PyObj.sub ⟨3, 12⟩] = Except.ok ⟨3, 12⟩ ∧
    (subrange.mk 3 12).eqVal (PyObj.sub ⟨3, 12⟩) = true :=
  ⟨(C6_copy_construction 3 12 (by decide)).2.1,
   (C6_copy_construction 3 12 (by decide)).2.2⟩

/-- Claim C7: a mapping initializer lacking 'min', 'max', or both fails
with a TypeError naming every missing key; the keys appear in the fixed
deterministic CPython set order 'max' before 'min', which is also
alphabetically sorted. -/
theorem C7_dict_missing_keys :
    ∀ entries : List (String × PyObj),
      (hasKey entries "min" = false → hasKey entries "max" = false →
        subrangeNew [PyObj.dict entries] = Except.error (PyErr.typeError
          "initializing dictionary does not define 'max', 'min'")) ∧
      (hasKey entries "min" = true → hasKey entries "max" = false →
        subrangeNew [PyObj.dict entries] = Except.error (PyErr.typeError
          "initializing dictionary does not define 'max'")) ∧
      (hasKey entries "min" = false → hasKey entries "max" = true →
        subrangeNew [PyObj.dict entries] = Except.error (PyErr.typeError
          "initializing dictionary does not define 'min'")) := by
  intro entries
  refine ⟨?_, ?_, ?_⟩ <;> intro h1 h2 <;>
    simp [subrangeNew, absentEntries, quoteKeys, joinComma, h1, h2]

/-- Witness for C7: the empty mapping misses both keys; a mapping with
only 'min' misses 'max'. -/
theorem C7_dict_missing_keys_witness :
    subrangeNew [PyObj.dict []] = Except.error (PyErr.typeError
      "initializing dictionary does not define 'max', 'min'") ∧
    subrangeNew [PyObj.dict [("min", PyObj.int 1)]] = Except.error (PyErr.typeError
      "initializing dictionary does not define 'max'") :=
  ⟨(C7_dict_missing_keys []).1 rfl rfl,
   (C7_dict_missing_keys [("min", PyObj.int 1)]).2.1 (by decide) (by decide)⟩

/-- Claim C10: on an interval with at least two items, a boolean index
passes the isinstance(key, int) test (bool subclasses int): False
yields min and True yields min + 1; by contrast construction rejects a
boolean bound, since it tests the exact type. -/
theorem C10_bool_index_accepted :
    ∀ lo hi : Int, lo + 1 ≤ hi →
      (subrange.mk lo hi).getItem (PyObj.bool false) = Except.ok lo ∧
      (subrange.mk lo hi).getItem (PyObj.bool true) = Except.ok (lo + 1) ∧
      (∀ (b : Bool) (mx : PyObj), subrangeNew [PyObj.bool b, mx] =
        Except.error (PyErr.typeError
          ("invalid limits: min=" ++ pyRepr (PyObj.bool b) ++ ", max=" ++ pyRepr mx))) := by
  intro lo hi h
  have h0 : (0:Int) ≤ hi - lo := by omega
  have h1 : (1:Int) ≤ hi - lo := by omega
  refine ⟨?_, ?_, ?_⟩
  · simp [subrange.getItem, keyIntVal, h0]
  · simp [subrange.getItem, keyIntVal, h1]
  · intro b mx
    simp [subrangeNew, checkLimits, isExactInt]

/-- Witness for C10 on the interval 0..5 and a True bound. -/
theorem C10_bool_index_accepted_witness :
    (subrange.mk 0 5).getItem (PyObj.bool false) = Except.ok 0 ∧
    (subrange.mk 0 5).getItem (PyObj.bool true) = Except.ok 1 ∧
    subrangeNew [PyObj.bool true, PyObj.int 5] =
      Except.error (PyErr.typeError
        ("invalid limits: min=" ++ pyRepr (PyObj.bool true) ++ ", max=" ++ pyRepr (PyObj.int 5))) :=
  ⟨(C10_bool_index_accepted 0 5 (by decide)).1,
   (C10_bool_index_accepted 0 5 (by decide)).2.1,
   (C10_bool_index_accepted 0 5 (by decide)).2.2 true (PyObj.int 5)⟩

/-- Counterexample to claim C3: constructing subrangef(1, 2) with the
keyword min=99 does not fail; construction succeeds and the keyword is
silently replaced by the core bound 1 (the instance-dictionary update
of subrangef.__new__ bypasses the write-once __setattr__). -/
theorem C3_reserved_name_counterexample :
    exceptOk (subrangefNew [PyObj.int 1, PyObj.int 2] [("min", PyObj.int 99)]) = true ∧
    subrangefNew [PyObj.int 1, PyObj.int 2] [("min", PyObj.int 99)] =
      Except.ok ⟨⟨1, 2⟩, [("min", PyObj.int 1)]⟩ :=
  ⟨rfl, rfl⟩

/-- Claim C3 as amended: with valid bounds, an annotation named 'value'
makes construction fail with an AttributeError (the write-once
__setattr__ rejects the core assignment self.value after the keyword
was injected into the instance dictionary); annotations named 'min' or
'max' do not make construction fail and do not override the core
fields: the keyword is silently replaced by the core bound. -/
theorem C3_reserved_names_amended :
    ∀ lo hi : Int, lo ≤ hi → ∀ v : PyObj,
      subrangefNew [PyObj.int lo, PyObj.int hi] [("value", v)] =
        Except.error (PyErr.attributeError
          "attribute 'value' of 'subrangef' objects is not writable") ∧
      subrangefNew [PyObj.int lo, PyObj.int hi] [("min", v)] =
        Except.ok ⟨⟨lo, hi⟩, [("min", PyObj.int lo)]⟩ ∧
      subrangefNew [PyObj.int lo, PyObj.int hi] [("max", v)] =
        Except.ok ⟨⟨lo, hi⟩, [("max", PyObj.int hi)]⟩ := by
  intro lo hi hle v
  have hng : ¬ (lo > hi) := by omega
  refine ⟨?_, ?_, ?_⟩ <;>
    simp [subrangefNew, subrangeNew, checkLimits, isExactInt, hng, hasKey]

/-- Witness for the amended C3 at bounds (1, 2) and a string keyword
value. -/
theorem C3_reserved_names_amended_witness :
    subrangefNew [PyObj.int 1, PyObj.int 2] [("value", PyObj.str "x")] =
      Except.error (PyErr.attributeError
        "attribute 'value' of 'subrangef' objects is not writable") ∧
    subrangefNew [PyObj.int 1, PyObj.int 2] [("max", PyObj.str "x")] =
      Except.ok ⟨⟨1, 2⟩, [("max", PyObj.int 2)]⟩ :=
  ⟨(C3_reserved_names_amended 1 2 (by decide) (PyObj.str "x")).1,
   (C3_reserved_names_amended 1 2 (by decide) (PyObj.str "x")).2.2⟩

/-- Claim C8: a constructed subrangef carries exactly the core of the
plain subrange built from the same bounds: it is equal to it (in both
operand orders), hashes identically, and orders identically against
every subrange — the annotations never enter equality, ordering or
hashing. -/
theorem C8_subrangef_eq_core :
    ∀ (args : List PyObj) (kwargs : List (String × PyObj))
      (f : subrangef) (s : subrange),
      subrangefNew args kwargs = Except.ok f →
      subrangeNew args = Except.ok s →
      f.core = s ∧
      f.core.eqVal (PyObj.sub s) = true ∧
      s.eqVal (PyObj.sub f.core) = true ∧
      f.core.hashInput = s.hashInput ∧
      (∀ b : subrange, f.core.lt b = s.lt b ∧ f.core.gt b = s.gt b ∧
        f.core.le b = s.le b ∧ f.core.ge b = s.ge b) := by
  intro args kwargs f s hf hs
  unfold subrangefNew at hf
  rw [hs] at hf
  cases hv : hasKey kwargs "value" <;> rw [hv] at hf <;> simp at hf
  subst hf
  refine ⟨rfl, by simp [subrange.eqVal], by simp [subrange.eqVal], rfl, ?_⟩
  intro b
  exact ⟨rfl, rfl, rfl, rfl⟩

/-- Witness for C8 at subrangef(1, 2, id="X") against subrange(1, 2). -/
theorem C8_subrangef_eq_core_witness :
    (subrangef.mk ⟨1, 2⟩ [("id", PyObj.str "X")]).core = subrange.mk 1 2 ∧
    (subrangef.mk ⟨1, 2⟩ [("id", PyObj.str "X")]).core.hashInput =
      (subrange.mk 1 2).hashInput :=
  ⟨(C8_subrangef_eq_core [PyObj.int 1, PyObj.int 2] [("id", PyObj.str "X")]
      ⟨⟨1, 2⟩, [("id", PyObj.str "X")]⟩ ⟨1, 2⟩ rfl rfl).1,
   (C8_subrangef_eq_core [PyObj.int 1, PyObj.int 2] [("id", PyObj.str "X")]
      ⟨⟨1, 2⟩, [("id", PyObj.str "X")]⟩ ⟨1, 2⟩ rfl rfl).2.2.2.1⟩
